import Mathlib

/-!
Verification of the ADI / ADIF parser (rust-adif).

This file is a shallow embedding of the parser in `src/adi.rs`, the utility
function in `src/adifutil.rs`, and the logical interpreter in `src/adif.rs`.

Modelling conventions:
* Bytes are `Nat` values (all produced values are < 256; no arithmetic
  overflows occur in the modelled code, so no modular reduction is needed).
* Rust `String` values are modelled as their byte lists (`List Nat`); every
  string manipulated by the modelled code is ASCII-validated first, so the
  byte-list view is exact.
* `Vec<T>` is `List T`; pushing is appending at the end.
* Stateful functions taking `&mut AdiParseState` become explicit
  state-passing functions returning `Except AdifParseError α × AdiParseState`
  (the Rust `Result` together with the final state of the borrowed parser
  state).
* Rust `assert!`/`assert_eq!`/`.unwrap()` failures abort the process; they
  are modelled by the dedicated error constructor `ADIF_PANIC`, which the
  real error enum does not have, so a panic is never confused with an
  ordinary returned error.
* Loops (`loop`/`while`) are modelled with an explicit fuel argument
  (structural recursion); exhausted fuel yields the model-only error
  `ADIF_EFUEL`.  Every concrete evaluation below uses fuel that is larger
  than the number of loop iterations possible for its input, and the
  universally-quantified theorems hold for every fuel value.
* The byte source (`BufRead` over a `Cursor`) is the remaining byte list:
  `fill_buf` returns the whole remaining input (true for in-memory
  cursors), and I/O errors cannot occur.
-/

/-- `'<'`, `':'` and `'>'` as bytes, together with CR and LF. -/
def LAB_BYTE : Nat := 60
def COLON_BYTE : Nat := 58
def RAB_BYTE : Nat := 62

/-- Byte list of an ASCII string literal (for ASCII text this is exactly the
UTF-8 byte sequence of the Rust string). -/
def strBytes (s : String) : List Nat := s.toList.map Char.toNat

/-- `AdifParseError` is referenced from `src/adi.rs` and `src/adif.rs` as
`super::AdifParseError`; its declaration is in the crate root, which is not
among the provided sources.  Its three constructors are fully determined by
the uses in the provided files: `ADIF_EIO(io::Error)`,
`ADIF_EBADINPUT(String)` and `ADIF_ENOT_YET_IMPLEMENTED(String)` (see the
test module of `src/adi.rs`, lines 820-831).  Two extra constructors are
model devices: `ADIF_PANIC` models a Rust assertion failure / panic
(process abort), and `ADIF_EFUEL` models exhaustion of the explicit fuel
in loop translations (unreachable for sufficiently large fuel). -/
inductive AdifParseError where
  | ADIF_EIO : List Nat → AdifParseError
  | ADIF_EBADINPUT : List Nat → AdifParseError
  | ADIF_ENOT_YET_IMPLEMENTED : List Nat → AdifParseError
  | ADIF_PANIC : List Nat → AdifParseError
  | ADIF_EFUEL : AdifParseError
deriving DecidableEq

/-- `AdiToken` (src/adi.rs lines 152-158). -/
inductive AdiToken where
  | ADI_TOK_BYTES : List Nat → AdiToken
  | ADI_TOK_LAB : AdiToken
  | ADI_TOK_COLON : AdiToken
  | ADI_TOK_RAB : AdiToken
  | ADI_TOK_EOF : AdiToken
deriving DecidableEq

/-- `AdiDataSpecifier` (src/adi.rs lines 72-78). -/
structure AdiDataSpecifier where
  adif_name : List Nat
  adif_name_canon : List Nat
  adif_length : Nat
  adif_bytes : List Nat
  adif_type : Option (List Nat)
deriving DecidableEq

/-- `AdiRecord` (src/adi.rs lines 57-59). -/
structure AdiRecord where
  adir_fields : List AdiDataSpecifier
deriving DecidableEq

/-- `AdiHeader` (src/adi.rs lines 49-52). -/
structure AdiHeader where
  adih_content : List Nat
  adih_fields : List AdiDataSpecifier
deriving DecidableEq

/-- `AdiFile` (src/adi.rs lines 41-44). -/
structure AdiFile where
  adi_header : Option AdiHeader
  adi_records : List AdiRecord
deriving DecidableEq

/-- `AdiParseState` (src/adi.rs lines 312-317).  The `BufRead` source is the
list of bytes not yet consumed. -/
structure AdiParseState where
  aps_source : List Nat
  aps_tokens : List AdiToken
  aps_error : Bool
  aps_done : Bool
deriving DecidableEq

/-- `ADI_STR_EOH` (src/adi.rs line 27). -/
def ADI_STR_EOH : List Nat := strBytes "eoh"

/-- `ADI_STR_EOR` (src/adi.rs line 28). -/
def ADI_STR_EOR : List Nat := strBytes "eor"

/-- `ADI_MAX_FIELDLEN` (src/adi.rs line 35). -/
def ADI_MAX_FIELDLEN : Nat := 1024

/-- ASCII lower-casing of one byte, as performed by
`char::to_ascii_lowercase` (and by `String::to_lowercase` on
ASCII-only strings, which is the only way the source applies it). -/
def lowerByte (b : Nat) : Nat := if 65 ≤ b ∧ b ≤ 90 then b + 32 else b

/-- `char::eq_ignore_ascii_case` on two bytes viewed as chars
(src/adifutil.rs line 42). -/
def eq_ignore_ascii_case (a b : Nat) : Bool := lowerByte a = lowerByte b

/-- Byte-by-byte comparison loop of `byteseq_equal_ci`
(src/adifutil.rs lines 37-46); the index-based `while` loop is rendered as
simultaneous structural recursion on both lists (the function is only
applied after the length check, under which the two renderings agree). -/
def byteseq_equal_ci_go : List Nat → List Nat → Bool
  | [], _ => true
  | _ :: _, [] => true
  | cb :: brest, cs :: srest =>
    if eq_ignore_ascii_case cs cb then byteseq_equal_ci_go brest srest
    else false

/-- `byteseq_equal_ci` (src/adifutil.rs lines 26-49). -/
def byteseq_equal_ci (bytes : List Nat) (s : List Nat) : Bool :=
  if bytes.length ≠ s.length then false
  else byteseq_equal_ci_go bytes s

/-- The per-byte validity test of `adi_token_string`
(src/adi.rs lines 197-198): the byte must be ASCII (`≤ 127`) and must not
be an ASCII control byte (`< 32` or `= 127`) other than CR (13) or LF (10). -/
def adi_text_byte_ok (b : Nat) : Bool :=
  if 127 < b then false
  else if (b < 32 ∨ b = 127) ∧ b ≠ 13 ∧ b ≠ 10 then false
  else true

/-- Decimal rendering of a `Nat` (for `format!` interpolation of integers),
as ASCII digit bytes.  The first argument is fuel, always called with
fuel = n which suffices since `n / 10 < n` for `n ≥ 10`. -/
def natDecimalGo : Nat → Nat → List Nat → List Nat
  | 0, n, acc => (48 + n % 10) :: acc
  | Nat.succ fuel, n, acc =>
    if n < 10 then (48 + n) :: acc
    else natDecimalGo fuel (n / 10) ((48 + n % 10) :: acc)

/-- Decimal digits of `n` as bytes. -/
def natDecimal (n : Nat) : List Nat := natDecimalGo n n []

/-- One lowercase hex digit byte. -/
def hexDigit (n : Nat) : Nat := if n < 10 then 48 + n else 87 + n

/-- Lowercase hexadecimal rendering of a `Nat` (for `format!("{:x}", _)`),
fueled like `natDecimal`. -/
def natHexGo : Nat → Nat → List Nat → List Nat
  | 0, n, acc => hexDigit (n % 16) :: acc
  | Nat.succ fuel, n, acc =>
    if n < 16 then hexDigit n :: acc
    else natHexGo fuel (n / 16) (hexDigit (n % 16) :: acc)

/-- Lowercase hex digits of `n` as bytes. -/
def natHex (n : Nat) : List Nat := natHexGo n n []

/-- `adi_token_text` (src/adi.rs lines 165-174). -/
def adi_token_text (token : AdiToken) : List Nat :=
  match token with
  | .ADI_TOK_BYTES _ => strBytes "bytes"
  | .ADI_TOK_LAB => strBytes "\"<\""
  | .ADI_TOK_RAB => strBytes "\">\""
  | .ADI_TOK_COLON => strBytes "\":\""
  | .ADI_TOK_EOF => strBytes "end of input"

/-- `adi_token_string` (src/adi.rs lines 180-217).  Note: in the source the
index `i` used in the error message is initialized to 0 and never
incremented, so the message always reports `buf[0]` no matter which byte
failed validation; since the message is the only use of `i`, checking all
bytes with `List.all` and reporting `buf[0]` is observationally identical
to the source loop. -/
def adi_token_string (token : AdiToken) (label : List Nat) :
    Except AdifParseError (List Nat) :=
  match token with
  | .ADI_TOK_BYTES buf =>
    if buf.all adi_text_byte_ok then .ok buf
    else .error (.ADIF_EBADINPUT (label ++
      strBytes ": expected ASCII character, but found byte 0x" ++
      natHex (buf.getD 0 0)))
  | _ => .error (.ADIF_EBADINPUT (label ++
      strBytes ": expected ASCII string, but found " ++ adi_token_text token))

/-- `adi_import_read_token` (src/adi.rs lines 222-270).  For an in-memory
source, `fill_buf` returns the entire remaining input and cannot fail, so
the byte run is the maximal delimiter-free run and the `Result` is always
`Ok`. -/
def adi_import_read_token (source : List Nat) : AdiToken × List Nat :=
  match source with
  | [] => (.ADI_TOK_EOF, [])
  | c :: rest =>
    if c = LAB_BYTE then (.ADI_TOK_LAB, rest)
    else if c = COLON_BYTE then (.ADI_TOK_COLON, rest)
    else if c = RAB_BYTE then (.ADI_TOK_RAB, rest)
    else
      let bytes := (c :: rest).takeWhile
        (fun b => ¬ (b = LAB_BYTE ∨ b = COLON_BYTE ∨ b = RAB_BYTE))
      (.ADI_TOK_BYTES bytes, (c :: rest).drop bytes.length)

/-- The `while` loop of `adi_parse_advance_tokens` (src/adi.rs lines
346-360).  The first argument is the loop's bound `howmany`; the second is
fuel.  Each iteration appends exactly one token, so after `howmany`
iterations `aps_tokens.length ≥ howmany` and the guard fails: calling with
fuel = `howmany` renders the loop exactly. -/
def adi_advance_go (howmany : Nat) : Nat → AdiParseState → AdiParseState
  | 0, aps => aps
  | Nat.succ fuel, aps =>
    if aps.aps_done then aps
    else if aps.aps_tokens.length ≥ howmany then aps
    else
      let r := adi_import_read_token aps.aps_source
      adi_advance_go howmany fuel
        { aps_source := r.2
          aps_tokens := aps.aps_tokens ++ [r.1]
          aps_error := aps.aps_error
          aps_done := match r.1 with
                      | .ADI_TOK_EOF => true
                      | _ => aps.aps_done }

/-- `adi_parse_advance_tokens` (src/adi.rs lines 342-363).  The tokenizer
cannot fail on an in-memory source, so the only failure is the entry
assertion `assert!(!aps.aps_error)`. -/
def adi_parse_advance_tokens (aps : AdiParseState) (howmany : Nat) :
    Except AdifParseError Unit × AdiParseState :=
  if aps.aps_error then
    (.error (.ADIF_PANIC (strBytes "assertion failed: state has error")), aps)
  else (.ok (), adi_advance_go howmany howmany aps)

/-- `adi_parse_consume_tokens` (src/adi.rs lines 369-384): removing the
first `howmany` tokens one at a time is `List.drop howmany`. -/
def adi_parse_consume_tokens (aps : AdiParseState) (howmany : Nat) :
    Except AdifParseError Unit × AdiParseState :=
  if aps.aps_error then
    (.error (.ADIF_PANIC (strBytes "assertion failed: state has error")), aps)
  else if aps.aps_tokens.length < howmany then
    (.error (.ADIF_PANIC
      (strBytes "assertion failed: consuming tokens not yet read")), aps)
  else (.ok (), { aps with aps_tokens := aps.aps_tokens.drop howmany })

/-- `adi_parse_peek_token` (src/adi.rs lines 390-408). -/
def adi_parse_peek_token (aps : AdiParseState) (which : Nat) :
    Except AdifParseError AdiToken × AdiParseState :=
  match adi_parse_advance_tokens aps (which + 1) with
  | (.error e, a) => (.error e, a)
  | (.ok _, aps1) =>
    if which < aps1.aps_tokens.length then
      (.ok (aps1.aps_tokens.getD which .ADI_TOK_EOF), aps1)
    else if aps1.aps_done = false then
      (.error (.ADIF_PANIC (strBytes "assertion failed: not done")), aps1)
    else if aps1.aps_tokens.length = 0 then
      (.error (.ADIF_PANIC (strBytes "assertion failed: no tokens")), aps1)
    else if aps1.aps_tokens.getD (aps1.aps_tokens.length - 1) .ADI_TOK_EOF
        ≠ .ADI_TOK_EOF then
      (.error (.ADIF_PANIC
        (strBytes "assertion failed: last token is not EOF")), aps1)
    else
      (.ok (aps1.aps_tokens.getD (aps1.aps_tokens.length - 1) .ADI_TOK_EOF),
       aps1)

/-- The value-accumulation `while` loop of `adi_parse_data_specifier`
(src/adi.rs lines 592-616), with fuel.  Note the `ADI_TOK_COLON` arm of the
source (line 597-599) pushes the byte `'<'` (0x3C), not `':'` -- this is
reproduced faithfully here.  Also note the source consumes the peeked token
(line 595) before matching it, so an `ADI_TOK_EOF` encountered here is
removed from the token queue before the error return. -/
def adi_parse_value_loop (fieldlength : Nat) :
    Nat → List Nat → AdiParseState →
    Except AdifParseError (List Nat) × AdiParseState
  | 0, _, aps => (.error .ADIF_EFUEL, aps)
  | Nat.succ fuel, fieldvalue, aps =>
    if fieldlength ≤ fieldvalue.length then (.ok fieldvalue, aps)
    else
      match adi_parse_peek_token aps 0 with
      | (.error e, a) => (.error e, a)
      | (.ok t_value, aps1) =>
        match adi_parse_consume_tokens aps1 1 with
        | (.error e, a) => (.error e, a)
        | (.ok _, aps2) =>
          match t_value with
          | .ADI_TOK_COLON =>
            -- source bug kept: pushes '<' (60) for a colon token
            adi_parse_value_loop fieldlength fuel (fieldvalue ++ [60]) aps2
          | .ADI_TOK_RAB =>
            adi_parse_value_loop fieldlength fuel (fieldvalue ++ [62]) aps2
          | .ADI_TOK_LAB =>
            adi_parse_value_loop fieldlength fuel (fieldvalue ++ [60]) aps2
          | .ADI_TOK_BYTES buf =>
            adi_parse_value_loop fieldlength fuel
              (fieldvalue ++ buf.take (min buf.length
                (fieldlength - fieldvalue.length))) aps2
          | .ADI_TOK_EOF =>
            (.error (.ADIF_EBADINPUT (strBytes
              "parsing data specifier: unexpected end of input in value")),
             aps2)

/-- `adi_parse_consume_until_lab` (src/adi.rs lines 697-710), with fuel. -/
def adi_parse_consume_until_lab :
    Nat → AdiParseState → Except AdifParseError Unit × AdiParseState
  | 0, aps => (.error .ADIF_EFUEL, aps)
  | Nat.succ fuel, aps =>
    match adi_parse_peek_token aps 0 with
    | (.error e, a) => (.error e, a)
    | (.ok t_next, aps1) =>
      match t_next with
      | .ADI_TOK_LAB => (.ok (), aps1)
      | .ADI_TOK_EOF => (.ok (), aps1)
      | _ =>
        match adi_parse_consume_tokens aps1 1 with
        | (.error e, a) => (.error e, a)
        | (.ok _, aps2) => adi_parse_consume_until_lab fuel aps2

/-- Model of `str::parse::<usize>()` applied to the field-length string
(src/adi.rs line 553): an optional leading `'+'`, then at least one ASCII
decimal digit, rejecting values that do not fit in a 64-bit `usize`; on
failure the `Display` rendering of the corresponding `ParseIntError` is
returned. -/
def rust_parse_usize (s : List Nat) : Except (List Nat) Nat :=
  match s with
  | [] => .error (strBytes "cannot parse integer from empty string")
  | _ =>
    let digits := if s.headD 0 = 43 then s.tail else s
    match digits with
    | [] => .error (strBytes "invalid digit found in string")
    | _ =>
      if digits.all (fun b => 48 ≤ b ∧ b ≤ 57) then
        let n := digits.foldl (fun acc b => acc * 10 + (b - 48)) 0
        if n < 2 ^ 64 then .ok n
        else .error (strBytes "number too large to fit in target type")
      else .error (strBytes "invalid digit found in string")

/-- `adi_parse_data_specifier` (src/adi.rs lines 530-633).  The entry
`assert_eq!` (line 533) and the final `assert_eq!` on the accumulated value
length (line 624) are modelled as `ADIF_PANIC`; `.unwrap()` on the entry
peek propagates the peek's (panic) error. -/
def adi_parse_data_specifier (fuel : Nat) (aps : AdiParseState) :
    Except AdifParseError AdiDataSpecifier × AdiParseState :=
  match adi_parse_peek_token aps 0 with
  | (.error e, a) => (.error e, a)
  | (.ok t0, aps0) =>
    if t0 ≠ .ADI_TOK_LAB then
      (.error (.ADIF_PANIC (strBytes
        "assertion failed: data specifier does not start with left bracket")),
       aps0)
    else
      match adi_parse_peek_token aps0 1 with
      | (.error e, a) => (.error e, a)
      | (.ok t_fieldname, aps1) =>
        match adi_parse_peek_token aps1 2 with
        | (.error e, a) => (.error e, a)
        | (.ok t_colon, aps2) =>
          match adi_parse_peek_token aps2 3 with
          | (.error e, a) => (.error e, a)
          | (.ok t_fieldlength, aps3) =>
            match adi_parse_peek_token aps3 4 with
            | (.error e, a) => (.error e, a)
            | (.ok t_rab, aps4) =>
              match adi_token_string t_fieldname
                  (strBytes "parsing data specifier") with
              | .error e => (.error e, aps4)
              | .ok fieldname =>
                if t_colon ≠ .ADI_TOK_COLON then
                  (.error (.ADIF_EBADINPUT (strBytes
                    "parsing data specifier: expected " ++
                    adi_token_text .ADI_TOK_COLON ++
                    strBytes ", but found " ++ adi_token_text t_colon)),
                   aps4)
                else
                  match adi_token_string t_fieldlength
                      (strBytes "parsing data specifier length") with
                  | .error e => (.error e, aps4)
                  | .ok fieldlength_str =>
                    match rust_parse_usize fieldlength_str with
                    | .error s =>
                      (.error (.ADIF_EBADINPUT (strBytes
                        "parsing data specifier length: " ++ s)), aps4)
                    | .ok fieldlength =>
                      if ADI_MAX_FIELDLEN < fieldlength then
                        (.error (.ADIF_EBADINPUT (strBytes
                          "parsing data specifier: max supported size is " ++
                          natDecimal ADI_MAX_FIELDLEN ++ strBytes " bytes")),
                         aps4)
                      else
                        match t_rab with
                        | .ADI_TOK_COLON =>
                          (.error (.ADIF_ENOT_YET_IMPLEMENTED (strBytes
                            "parsing data specifier: typed values are not supported")),
                           aps4)
                        | .ADI_TOK_RAB =>
                          match adi_parse_consume_tokens aps4 5 with
                          | (.error e, a) => (.error e, a)
                          | (.ok _, aps5) =>
                            match adi_parse_value_loop fieldlength fuel [] aps5 with
                            | (.error e, a) => (.error e, a)
                            | (.ok fieldvalue, aps6) =>
                              match adi_parse_consume_until_lab fuel aps6 with
                              | (.error e, a) => (.error e, a)
                              | (.ok _, aps7) =>
                                if fieldvalue.length = fieldlength then
                                  (.ok { adif_name := fieldname
                                         adif_name_canon :=
                                           fieldname.map lowerByte
                                         adif_length := fieldlength
                                         adif_bytes := fieldvalue
                                         adif_type := none }, aps7)
                                else
                                  (.error (.ADIF_PANIC (strBytes
                                    "assertion failed: value length mismatch")),
                                   aps7)
                        | t =>
                          (.error (.ADIF_EBADINPUT (strBytes
                            "parsing data specifier: expected " ++
                            adi_token_text .ADI_TOK_RAB ++
                            strBytes ", but found " ++ adi_token_text t)),
                           aps4)

/-- The `loop` of `adi_parse_header` (src/adi.rs lines 445-500), with fuel,
carrying the accumulated `header_content` and `header_fields`. -/
def adi_parse_header_loop :
    Nat → List Nat → List AdiDataSpecifier → AdiParseState →
    Except AdifParseError AdiHeader × AdiParseState
  | 0, _, _, aps => (.error .ADIF_EFUEL, aps)
  | Nat.succ fuel, content, fields, aps =>
    match adi_parse_peek_token aps 0 with
    | (.error e, a) => (.error e, a)
    | (.ok t, aps1) =>
      match t with
      | .ADI_TOK_BYTES b =>
        match adi_parse_consume_tokens aps1 1 with
        | (.error e, a) => (.error e, a)
        | (.ok _, aps2) =>
          adi_parse_header_loop fuel (content ++ b) fields aps2
      | .ADI_TOK_COLON =>
        match adi_parse_consume_tokens aps1 1 with
        | (.error e, a) => (.error e, a)
        | (.ok _, aps2) =>
          adi_parse_header_loop fuel (content ++ [58]) fields aps2
      | .ADI_TOK_RAB =>
        match adi_parse_consume_tokens aps1 1 with
        | (.error e, a) => (.error e, a)
        | (.ok _, aps2) =>
          adi_parse_header_loop fuel (content ++ [62]) fields aps2
      | .ADI_TOK_EOF =>
        (.error (.ADIF_EBADINPUT (strBytes
          "unexpected end of input while reading header")), aps1)
      | .ADI_TOK_LAB =>
        match adi_parse_peek_token aps1 1 with
        | (.error e, a) => (.error e, a)
        | (.ok next, aps2) =>
          match next with
          | .ADI_TOK_BYTES s =>
            if byteseq_equal_ci s ADI_STR_EOH then
              match adi_parse_peek_token aps2 2 with
              | (.error e, a) => (.error e, a)
              | (.ok next2, aps3) =>
                if next2 = .ADI_TOK_RAB then
                  match adi_parse_consume_tokens aps3 3 with
                  | (.error e, a) => (.error e, a)
                  | (.ok _, aps4) =>
                    (.ok { adih_content := content, adih_fields := fields },
                     aps4)
                else
                  match adi_parse_data_specifier fuel aps3 with
                  | (.error e, a) => (.error e, a)
                  | (.ok spec, aps4) =>
                    adi_parse_header_loop fuel content (fields ++ [spec]) aps4
            else
              match adi_parse_data_specifier fuel aps2 with
              | (.error e, a) => (.error e, a)
              | (.ok spec, aps3) =>
                adi_parse_header_loop fuel content (fields ++ [spec]) aps3
          | _ =>
            match adi_parse_data_specifier fuel aps2 with
            | (.error e, a) => (.error e, a)
            | (.ok spec, aps3) =>
              adi_parse_header_loop fuel content (fields ++ [spec]) aps3

/-- `adi_parse_header` (src/adi.rs lines 440-506). -/
def adi_parse_header (fuel : Nat) (aps : AdiParseState) :
    Except AdifParseError AdiHeader × AdiParseState :=
  adi_parse_header_loop fuel [] [] aps

/-- The `loop` of `adi_parse_record` (src/adi.rs lines 669-687), with fuel,
carrying the accumulated field list. -/
def adi_parse_record_loop :
    Nat → List AdiDataSpecifier → AdiParseState →
    Except AdifParseError AdiRecord × AdiParseState
  | 0, _, aps => (.error .ADIF_EFUEL, aps)
  | Nat.succ fuel, fields, aps =>
    match adi_parse_peek_token aps 0 with
    | (.error e, a) => (.error e, a)
    | (.ok t_lab, aps1) =>
      match adi_parse_peek_token aps1 1 with
      | (.error e, a) => (.error e, a)
      | (.ok t_fieldname, aps2) =>
        match adi_parse_peek_token aps2 2 with
        | (.error e, a) => (.error e, a)
        | (.ok t_indicator, aps3) =>
          match t_lab, t_fieldname, t_indicator with
          | .ADI_TOK_LAB, .ADI_TOK_BYTES s, .ADI_TOK_RAB =>
            if byteseq_equal_ci s ADI_STR_EOR then
              match adi_parse_consume_tokens aps3 3 with
              | (.error e, a) => (.error e, a)
              | (.ok _, aps4) =>
                match adi_parse_consume_until_lab fuel aps4 with
                | (.error e, a) => (.error e, a)
                | (.ok _, aps5) => (.ok { adir_fields := fields }, aps5)
            else
              match adi_parse_data_specifier fuel aps3 with
              | (.error e, a) => (.error e, a)
              | (.ok spec, aps4) =>
                adi_parse_record_loop fuel (fields ++ [spec]) aps4
          | _, _, _ =>
            match adi_parse_data_specifier fuel aps3 with
            | (.error e, a) => (.error e, a)
            | (.ok spec, aps4) =>
              adi_parse_record_loop fuel (fields ++ [spec]) aps4

/-- `adi_parse_record` (src/adi.rs lines 662-690). -/
def adi_parse_record (fuel : Nat) (aps : AdiParseState) :
    Except AdifParseError AdiRecord × AdiParseState :=
  adi_parse_record_loop fuel [] aps

/-- The `loop` of `adi_parse_records` (src/adi.rs lines 645-654), with
fuel. -/
def adi_parse_records_loop :
    Nat → List AdiRecord → AdiParseState →
    Except AdifParseError (List AdiRecord) × AdiParseState
  | 0, _, aps => (.error .ADIF_EFUEL, aps)
  | Nat.succ fuel, records, aps =>
    match adi_parse_peek_token aps 0 with
    | (.error e, a) => (.error e, a)
    | (.ok t, aps1) =>
      match t with
      | .ADI_TOK_EOF => (.ok records, aps1)
      | _ =>
        match adi_parse_record fuel aps1 with
        | (.error e, a) => (.error e, a)
        | (.ok rec, aps2) =>
          adi_parse_records_loop fuel (records ++ [rec]) aps2

/-- `adi_parse_records` (src/adi.rs lines 638-657). -/
def adi_parse_records (fuel : Nat) (aps : AdiParseState) :
    Except AdifParseError (List AdiRecord) × AdiParseState :=
  match adi_parse_consume_until_lab fuel aps with
  | (.error e, a) => (.error e, a)
  | (.ok _, aps1) => adi_parse_records_loop fuel [] aps1

/-- `adi_parse` (src/adi.rs lines 413-435).  The final state of the
`AdiParseState` is returned alongside the `Result` (in Rust the state is a
local that is dropped; it is exposed here so that state invariants can be
stated). -/
def adi_parse (fuel : Nat) (source : List Nat) :
    Except AdifParseError AdiFile × AdiParseState :=
  let aps : AdiParseState :=
    { aps_source := source, aps_tokens := [], aps_error := false,
      aps_done := false }
  match adi_parse_peek_token aps 0 with
  | (.error e, a) => (.error e, a)
  | (.ok t, aps1) =>
    match t with
    | .ADI_TOK_LAB =>
      match adi_parse_records fuel aps1 with
      | (.error e, a) => (.error e, a)
      | (.ok records, aps2) =>
        (.ok { adi_header := none, adi_records := records }, aps2)
    | _ =>
      match adi_parse_header fuel aps1 with
      | (.error e, a) => (.error e, a)
      | (.ok header, aps2) =>
        match adi_parse_records fuel aps2 with
        | (.error e, a) => (.error e, a)
        | (.ok records, aps3) =>
          (.ok { adi_header := some header, adi_records := records }, aps3)

/-- `adi_parse_string` (src/adi.rs lines 137-141), for ASCII inputs (every
input used below is ASCII, for which `strBytes` is exactly the UTF-8 byte
sequence the Rust `Cursor` reads). -/
def adi_parse_string (fuel : Nat) (source : String) :
    Except AdifParseError AdiFile × AdiParseState :=
  adi_parse fuel (strBytes source)

/-- `AdifRecord` (src/adif.rs lines 125-127).  The `BTreeMap<String,String>`
is modelled as an association list in insertion order; the modelled code
only inserts keys that are not yet present (it checks `contains_key`
first), so keys are unique and the association list denotes the same
finite map. -/
structure AdifRecord where
  adir_field_values : List (List Nat × List Nat)
deriving DecidableEq

/-- `AdifFile` (src/adif.rs lines 21-36). -/
structure AdifFile where
  adif_adif_version : Option (List Nat)
  adif_program_id : Option (List Nat)
  adif_program_version : Option (List Nat)
  adif_created_timestamp : Option (List Nat)
  adif_label : List Nat
  adif_records : List AdifRecord
deriving DecidableEq

/-- Well-known header field names (src/adif.rs lines 15-18). -/
def ADIF_HEADER_ADIF_VER : List Nat := strBytes "adif_ver"
def ADIF_HEADER_CREATED_TIMESTAMP : List Nat := strBytes "created_timestamp"
def ADIF_HEADER_PROGRAMID : List Nat := strBytes "programid"
def ADIF_HEADER_PROGRAMVERSION : List Nat := strBytes "programversion"

/-- Validity of a byte list as UTF-8, exactly as checked by Rust's
`String::from_utf8` (src/adif.rs line 217): ASCII bytes stand alone;
2-byte sequences start at 0xC2-0xDF; 3-byte sequences exclude overlong
forms (0xE0 requires 0xA0-0xBF) and surrogates (0xED requires 0x80-0x9F);
4-byte sequences exclude overlong forms (0xF0 requires 0x90-0xBF) and
values above U+10FFFF (0xF4 requires 0x80-0x8F); continuation bytes are
0x80-0xBF. -/
def utf8Cont (b : Nat) : Bool := 128 ≤ b ∧ b ≤ 191

def utf8Valid : List Nat → Bool
  | [] => true
  | b :: rest =>
    if b ≤ 127 then utf8Valid rest
    else if 194 ≤ b ∧ b ≤ 223 then
      match rest with
      | b1 :: rest1 => if utf8Cont b1 then utf8Valid rest1 else false
      | [] => false
    else if 224 ≤ b ∧ b ≤ 239 then
      match rest with
      | b1 :: b2 :: rest2 =>
        let lo : Nat := if b = 224 then 160 else 128
        let hi : Nat := if b = 237 then 159 else 191
        if (lo ≤ b1 ∧ b1 ≤ hi) ∧ utf8Cont b2 then utf8Valid rest2 else false
      | _ => false
    else if 240 ≤ b ∧ b ≤ 244 then
      match rest with
      | b1 :: b2 :: b3 :: rest3 =>
        let lo : Nat := if b = 240 then 144 else 128
        let hi : Nat := if b = 244 then 143 else 191
        if (lo ≤ b1 ∧ b1 ≤ hi) ∧ utf8Cont b2 ∧ utf8Cont b3 then
          utf8Valid rest3
        else false
      | _ => false
    else false

/-- `adif_string` (src/adif.rs lines 199-224).  The decoded `String` has
exactly the bytes of `adif_bytes`, so the byte list itself is returned. -/
def adif_string (adf : AdiDataSpecifier) : Except AdifParseError (List Nat) :=
  match adf.adif_type with
  | some typestr =>
    if typestr ≠ strBytes "S" then
      .error (.ADIF_EBADINPUT (strBytes "field \"" ++ adf.adif_name ++
        strBytes "\": expected string value, but found type \"" ++ typestr ++
        strBytes "\""))
    else if utf8Valid adf.adif_bytes then .ok adf.adif_bytes
    else .error (.ADIF_EBADINPUT (strBytes "field \"" ++ adf.adif_name ++
      strBytes "\": value contained invalid bytes for UTF-8 string"))
  | none =>
    if utf8Valid adf.adif_bytes then .ok adf.adif_bytes
    else .error (.ADIF_EBADINPUT (strBytes "field \"" ++ adf.adif_name ++
      strBytes "\": value contained invalid bytes for UTF-8 string"))

/-- `BTreeMap::contains_key` on the association-list model. -/
def containsKey (m : List (List Nat × List Nat)) (k : List Nat) : Bool :=
  m.any (fun p => p.1 = k)

/-- The duplicate-field error message of `adif_parse_adi`
(src/adif.rs lines 176-178). -/
def dupMsg (which : Nat) (canon : List Nat) : List Nat :=
  strBytes "record " ++ natDecimal which ++
  strBytes ": duplicate value for field \"" ++ canon ++ strBytes "\""

/-- The header loop of `adif_parse_adi` (src/adif.rs lines 154-167),
updating the four well-known metadata slots of the accumulator. -/
def adif_header_fields (fields : List AdiDataSpecifier) (acc : AdifFile) :
    Except AdifParseError AdifFile :=
  match fields with
  | [] => .ok acc
  | adf :: rest =>
    if adf.adif_name_canon = ADIF_HEADER_ADIF_VER then
      match adif_string adf with
      | .error e => .error e
      | .ok v => adif_header_fields rest { acc with adif_adif_version := some v }
    else if adf.adif_name_canon = ADIF_HEADER_PROGRAMID then
      match adif_string adf with
      | .error e => .error e
      | .ok v => adif_header_fields rest { acc with adif_program_id := some v }
    else if adf.adif_name_canon = ADIF_HEADER_PROGRAMVERSION then
      match adif_string adf with
      | .error e => .error e
      | .ok v => adif_header_fields rest { acc with adif_program_version := some v }
    else if adf.adif_name_canon = ADIF_HEADER_CREATED_TIMESTAMP then
      match adif_string adf with
      | .error e => .error e
      | .ok v => adif_header_fields rest { acc with adif_created_timestamp := some v }
    else adif_header_fields rest acc

/-- The per-record field loop of `adif_parse_adi`
(src/adif.rs lines 173-183), building the canonical-name → value map. -/
def adif_record_fields (which : Nat) (fields : List AdiDataSpecifier)
    (record_values : List (List Nat × List Nat)) :
    Except AdifParseError (List (List Nat × List Nat)) :=
  match fields with
  | [] => .ok record_values
  | adf :: rest =>
    if containsKey record_values adf.adif_name_canon then
      .error (.ADIF_EBADINPUT (dupMsg which adf.adif_name_canon))
    else
      match adif_string adf with
      | .error e => .error e
      | .ok value =>
        adif_record_fields which rest
          (record_values ++ [(adf.adif_name_canon, value)])

/-- The record loop of `adif_parse_adi` (src/adif.rs lines 169-189); the
1-based counter `which` is incremented after each record. -/
def adif_records_go (which : Nat) (recs : List AdiRecord) :
    Except AdifParseError (List AdifRecord) :=
  match recs with
  | [] => .ok []
  | adr :: rest =>
    match adif_record_fields which adr.adir_fields [] with
    | .error e => .error e
    | .ok record_values =>
      match adif_records_go (which + 1) rest with
      | .error e => .error e
      | .ok more => .ok ({ adir_field_values := record_values } :: more)

/-- `adif_parse_adi` (src/adif.rs lines 142-192). -/
def adif_parse_adi (label : List Nat) (adi : AdiFile) :
    Except AdifParseError AdifFile :=
  let base : AdifFile :=
    { adif_adif_version := none, adif_program_id := none,
      adif_program_version := none, adif_created_timestamp := none,
      adif_label := label, adif_records := [] }
  match (match adi.adi_header with
         | none => .ok base
         | some adih => adif_header_fields adih.adih_fields base :
         Except AdifParseError AdifFile) with
  | .error e => .error e
  | .ok acc =>
    match adif_records_go 1 adi.adi_records with
    | .error e => .error e
    | .ok rs => .ok { acc with adif_records := rs }

/-! ## Claim theorems -/

/-- The expected physical parse of the C1 end-to-end input. -/
def c1ExpectedAdi : AdiFile :=
  { adi_header := some
      { adih_content := strBytes "preamble"
        adih_fields :=
          [ { adif_name := strBytes "foo", adif_name_canon := strBytes "foo",
              adif_length := 3, adif_bytes := strBytes "123",
              adif_type := none },
            { adif_name := strBytes "bar", adif_name_canon := strBytes "bar",
              adif_length := 4, adif_bytes := strBytes "4567",
              adif_type := none } ] }
    adi_records :=
      [ { adir_fields :=
          [ { adif_name := strBytes "call", adif_name_canon := strBytes "call",
              adif_length := 6, adif_bytes := strBytes "KK6ZBI",
              adif_type := none },
            { adif_name := strBytes "qso_date",
              adif_name_canon := strBytes "qso_date",
              adif_length := 8, adif_bytes := strBytes "20181129",
              adif_type := none } ] } ] }

/-- C1: the input `preamble<foo:3>123<bar:4>4567<eoh>\n<call:6>KK6ZBI\n
<qso_date:8>20181129\n<eor>` physically parses (`adi_parse_string`) to
header content "preamble" with header fields foo="123" and bar="4567" and
exactly one record, and `adif_parse_adi` interprets that result as exactly
one logical record mapping "call" to "KK6ZBI" and "qso_date" to
"20181129". -/
theorem claim_C1_end_to_end :
    (adi_parse_string 1000
      "preamble<foo:3>123<bar:4>4567<eoh>\n<call:6>KK6ZBI\n<qso_date:8>20181129\n<eor>").1
      = .ok c1ExpectedAdi
    ∧ adif_parse_adi (strBytes "test") c1ExpectedAdi = .ok
      { adif_adif_version := none, adif_program_id := none,
        adif_program_version := none, adif_created_timestamp := none,
        adif_label := strBytes "test",
        adif_records := [ { adir_field_values :=
          [ (strBytes "call", strBytes "KK6ZBI"),
            (strBytes "qso_date", strBytes "20181129") ] } ] } :=
  ⟨rfl, rfl⟩

/-- C2 (code bug): on `<f:3><:>` the data-specifier parser does produce a
specifier named "f" of declared length 3, but its value bytes are
`[60, 60, 62]` (i.e. `<<>`), not `<:>` = `[60, 58, 62]`: the
`ADI_TOK_COLON` arm of the value loop (src/adi.rs line 597-599) pushes the
byte `'<'` instead of `':'`.  The left-bracket and right-bracket arms do
contribute `'<'` and `'>'` as the claim states; the colon arm is a
copy-paste slip contradicting the spec and the comment in the source
explaining that values may legally contain these delimiter characters. -/
theorem claim_C2_colon_value_bug :
    adi_parse_data_specifier 100
        { aps_source := strBytes "<f:3><:>", aps_tokens := [],
          aps_error := false, aps_done := false }
      = (.ok { adif_name := strBytes "f", adif_name_canon := strBytes "f",
               adif_length := 3, adif_bytes := [60, 60, 62],
               adif_type := none },
         { aps_source := [], aps_tokens := [.ADI_TOK_EOF],
           aps_error := false, aps_done := true })
    ∧ strBytes "<:>" = [60, 58, 62]
    ∧ ([60, 60, 62] : List Nat) ≠ [60, 58, 62] :=
  ⟨rfl, rfl, by decide⟩

/-- C3 counterexample: on empty input `adi_parse` does NOT succeed; the
first peeked token is end-of-stream, which is not a left bracket, so
`adi_parse` attempts to parse a header and immediately fails with
malformed-input "unexpected end of input while reading header". -/
theorem claim_C3_counterexample :
    adi_parse 1000 []
      = (.error (.ADIF_EBADINPUT
          (strBytes "unexpected end of input while reading header")),
         { aps_source := [], aps_tokens := [.ADI_TOK_EOF],
           aps_error := false, aps_done := true }) :=
  rfl

/-- C3 (amended): for every positive fuel, parsing the empty input returns
the malformed-input error "unexpected end of input while reading header"
(rather than an empty `AdiFile`). -/
theorem claim_C3_empty_input (fuel : Nat) (h : 1 ≤ fuel) :
    (adi_parse fuel []).1
      = .error (.ADIF_EBADINPUT
          (strBytes "unexpected end of input while reading header")) := by
  obtain ⟨n, rfl⟩ : ∃ n, fuel = n + 1 := ⟨fuel - 1, by omega⟩
  rfl

/-- Witness for `claim_C3_empty_input` at fuel 1000. -/
theorem claim_C3_empty_input_witness :
    (adi_parse 1000 []).1
      = .error (.ADIF_EBADINPUT
          (strBytes "unexpected end of input while reading header")) :=
  claim_C3_empty_input 1000 (by norm_num)

/-- C4 (code bug): on the truncated input `<f:3>ab` the value loop of
`adi_parse_data_specifier` peeks the end-of-stream token and consumes it
(src/adi.rs lines 594-595 consume before matching), removing it from
`aps_tokens`: the final state has `aps_done = true` (the EOF token was
enqueued) but an empty token queue (it was removed), contradicting the
invariant claimed by the spec and by the source's own comment
(src/adi.rs lines 332-335).  The final conjunct exhibits the exact consume
step performed by that loop iteration: consuming one token from the queue
`[ADI_TOK_EOF]` removes the end-of-stream token. -/
theorem claim_C4_eof_consumed :
    adi_parse 1000 (strBytes "<f:3>ab")
      = (.error (.ADIF_EBADINPUT
          (strBytes "parsing data specifier: unexpected end of input in value")),
         { aps_source := [], aps_tokens := [],
           aps_error := false, aps_done := true })
    ∧ adi_parse_consume_tokens
        { aps_source := [], aps_tokens := [.ADI_TOK_EOF],
          aps_error := false, aps_done := true } 1
      = (.ok (), { aps_source := [], aps_tokens := [],
                   aps_error := false, aps_done := true }) :=
  ⟨rfl, rfl⟩

/-- C5 counterexample: the tokenizer `adi_import_read_token` performs no
byte validation at all: accumulating a raw-byte-run containing the NUL
byte (an ASCII control byte that is neither CR nor LF) succeeds and
produces the raw-byte-run token, instead of aborting with a
malformed-input error as the claim states. -/
theorem claim_C5_counterexample :
    adi_import_read_token [0] = (.ADI_TOK_BYTES [0], [])
    ∧ adi_text_byte_ok 0 = false :=
  ⟨rfl, rfl⟩

/-- C5 (amended): the ASCII/control validation is performed not by the
tokenizer but by `adi_token_string`, which interprets a raw-byte-run token
as a string (the parser applies it to field names and field lengths): if
any byte of the run is non-ASCII or is an ASCII control byte other than CR
or LF, it returns a malformed-input error; otherwise it returns the run's
bytes. -/
theorem claim_C5_validation_in_token_string (buf label : List Nat) :
    (buf.all adi_text_byte_ok = false →
      adi_token_string (.ADI_TOK_BYTES buf) label
        = .error (.ADIF_EBADINPUT (label ++
            strBytes ": expected ASCII character, but found byte 0x" ++
            natHex (buf.getD 0 0))))
    ∧ (buf.all adi_text_byte_ok = true →
      adi_token_string (.ADI_TOK_BYTES buf) label = .ok buf) := by
  constructor <;> intro h <;> simp [adi_token_string, h]

/-- Witness for `claim_C5_validation_in_token_string` on the run `[0]`
(a NUL byte) with an empty label. -/
theorem claim_C5_witness :
    adi_token_string (.ADI_TOK_BYTES [0]) []
      = .error (.ADIF_EBADINPUT
          (([] : List Nat) ++
           strBytes ": expected ASCII character, but found byte 0x" ++
           natHex ((([0] : List Nat)).getD 0 0))) :=
  (claim_C5_validation_in_token_string [0] []).1 (by decide)

/-- C10 (code bug): on the input `<call:6>KK6ZBI`, which ends mid-record
without an end-of-record marker, `adi_parse_record` re-enters its loop
with the sticky end-of-stream token at the front, the three peeked tokens
`(EOF, EOF, EOF)` do not match the end-of-record pattern, and
`adi_parse_data_specifier` is invoked with a front token that is not a
left bracket: its entry assertion (src/adi.rs line 533) fails, i.e. the
process panics instead of returning an error, contradicting the
function's own documented precondition ("the caller is responsible for
ensuring that the first token is a left angle bracket",
src/adi.rs lines 509-510). -/
theorem claim_C10_assert_fails :
    adi_parse_string 1000 "<call:6>KK6ZBI"
      = (.error (.ADIF_PANIC (strBytes
          "assertion failed: data specifier does not start with left bracket")),
         { aps_source := [], aps_tokens := [.ADI_TOK_EOF],
           aps_error := false, aps_done := true }) :=
  rfl

/-- The comparison loop of `byteseq_equal_ci` succeeds exactly when all
corresponding bytes agree after ASCII lower-casing (stated for lists of
equal length, which is the only way the loop is reached). -/
theorem byteseq_equal_ci_go_iff :
    ∀ (bytes s : List Nat), bytes.length = s.length →
    (byteseq_equal_ci_go bytes s = true ↔
      ∀ i, i < bytes.length →
        lowerByte (bytes.getD i 0) = lowerByte (s.getD i 0))
  | [], _, _ => by simp [byteseq_equal_ci_go]
  | _ :: _, [], h => by simp at h
  | b :: br, c :: cr, h => by
    have ih := byteseq_equal_ci_go_iff br cr (by simpa using h)
    simp only [byteseq_equal_ci_go, eq_ignore_ascii_case]
    by_cases hc : lowerByte c = lowerByte b
    · rw [if_pos (by simpa using hc), ih]
      constructor
      · intro hall i hi
        cases i with
        | zero => simpa using hc.symm
        | succ j => exact hall j (by simpa using hi)
      · intro hall i hi
        exact hall (i + 1) (by simpa using hi)
    · rw [if_neg (by simpa using hc)]
      constructor
      · intro hfalse
        exact absurd hfalse (by simp)
      · intro hall
        exact absurd ((hall 0 (by simp)).symm) hc

set_option maxHeartbeats 4000000 in
/-- C8: `byteseq_equal_ci bytes s` is true exactly when the two byte
sequences have equal length and corresponding bytes agree under ASCII
case-insensitive comparison; consequently header parsing terminates
identically on every ASCII casing of the `eoh` marker (`<EOH>`, `<eoh>`,
`<EoH>`, ...: bytes 101/69, 111/79, 104/72), and record parsing terminates
identically on every ASCII casing of the `eor` marker.  The final two
conjuncts show the common result of those parses. -/
theorem claim_C8_case_insensitive_markers :
    (∀ bytes s : List Nat,
      byteseq_equal_ci bytes s = true ↔
        (bytes.length = s.length ∧ ∀ i, i < bytes.length →
          lowerByte (bytes.getD i 0) = lowerByte (s.getD i 0)))
    ∧ (∀ b1 b2 b3 : Nat, b1 = 101 ∨ b1 = 69 → b2 = 111 ∨ b2 = 79 →
        b3 = 104 ∨ b3 = 72 →
        adi_parse 1000 ([120, 60] ++ [b1, b2, b3] ++ [62])
          = adi_parse 1000 (strBytes "x<eoh>"))
    ∧ (∀ b1 b2 b3 : Nat, b1 = 101 ∨ b1 = 69 → b2 = 111 ∨ b2 = 79 →
        b3 = 114 ∨ b3 = 82 →
        adi_parse 1000 (strBytes "<f:1>a<" ++ [b1, b2, b3] ++ [62])
          = adi_parse 1000 (strBytes "<f:1>a<eor>"))
    ∧ (adi_parse_string 1000 "x<eoh>").1
        = .ok { adi_header := some { adih_content := [120], adih_fields := [] },
                adi_records := [] }
    ∧ (adi_parse_string 1000 "<f:1>a<eor>").1
        = .ok { adi_header := none,
                adi_records := [ { adir_fields :=
                  [ { adif_name := [102], adif_name_canon := [102],
                      adif_length := 1, adif_bytes := [97],
                      adif_type := none } ] } ] } := by
  refine ⟨?_, ?_, ?_, rfl, rfl⟩
  · intro bytes s
    unfold byteseq_equal_ci
    by_cases h : bytes.length = s.length
    · rw [if_neg (by simpa using h), byteseq_equal_ci_go_iff bytes s h]
      exact ⟨fun hall => ⟨h, hall⟩, fun hall => hall.2⟩
    · rw [if_pos (by simpa using h)]
      constructor
      · intro hfalse
        exact absurd hfalse (by simp)
      · intro hall
        exact absurd hall.1 h
  · intro b1 b2 b3 h1 h2 h3
    rcases h1 with rfl | rfl <;> rcases h2 with rfl | rfl <;>
      rcases h3 with rfl | rfl <;> rfl
  · intro b1 b2 b3 h1 h2 h3
    rcases h1 with rfl | rfl <;> rcases h2 with rfl | rfl <;>
      rcases h3 with rfl | rfl <;> rfl

/-- Witness for `claim_C8_case_insensitive_markers`: the mixed casings
"EoH" and "EoR" at concrete bytes. -/
theorem claim_C8_witness :
    byteseq_equal_ci (strBytes "EoH") (strBytes "eoh") = true
    ∧ adi_parse 1000 ([120, 60] ++ [69, 111, 72] ++ [62])
        = adi_parse 1000 (strBytes "x<eoh>")
    ∧ adi_parse 1000 (strBytes "<f:1>a<" ++ [69, 111, 82] ++ [62])
        = adi_parse 1000 (strBytes "<f:1>a<eor>") :=
  ⟨(claim_C8_case_insensitive_markers.1 (strBytes "EoH") (strBytes "eoh")).mpr
      ⟨by decide, by decide⟩,
   claim_C8_case_insensitive_markers.2.1 69 111 72
      (Or.inr rfl) (Or.inl rfl) (Or.inr rfl),
   claim_C8_case_insensitive_markers.2.2.1 69 111 82
      (Or.inr rfl) (Or.inl rfl) (Or.inr rfl)⟩

/-- `adi_advance_go` is the identity when the token queue already holds at
least `howmany` tokens. -/
theorem adi_advance_go_of_le (howmany fuel : Nat) (aps : AdiParseState)
    (h : howmany ≤ aps.aps_tokens.length) :
    adi_advance_go howmany fuel aps = aps := by
  cases fuel with
  | zero => rfl
  | succ n => simp [adi_advance_go, h]

/-- Peeking at an offset already inside the token queue (on a non-faulted
state) returns that token and leaves the state unchanged. -/
theorem adi_parse_peek_token_of_lt (aps : AdiParseState) (which : Nat)
    (herr : aps.aps_error = false) (h : which < aps.aps_tokens.length) :
    adi_parse_peek_token aps which
      = (.ok (aps.aps_tokens.getD which .ADI_TOK_EOF), aps) := by
  unfold adi_parse_peek_token adi_parse_advance_tokens
  rw [herr]
  simp only [Bool.false_eq_true, if_false]
  rw [adi_advance_go_of_le _ _ _ (by omega), if_pos h]

/-- C6: whenever `adi_parse_data_specifier` is invoked on a state whose
next five tokens form `< name : length >` (with `name` and `length`
ASCII-valid raw-byte-runs), then -- before consuming anything and
regardless of what tokens or bytes follow (`tokrest` and the remaining
source are arbitrary, so it does not matter whether enough value bytes
actually follow), and for every fuel -- a length token parsing as an
integer strictly greater than `ADI_MAX_FIELDLEN` = 1024 yields the
malformed-input "max supported size" error, and a length token that does
not parse as a non-negative integer yields the malformed-input
"parsing data specifier length" error. -/
theorem claim_C6_fieldlen_limit (fuel : Nat) (aps : AdiParseState)
    (name d : List Nat) (tokrest : List AdiToken)
    (herr : aps.aps_error = false)
    (htoks : aps.aps_tokens = .ADI_TOK_LAB :: .ADI_TOK_BYTES name ::
      .ADI_TOK_COLON :: .ADI_TOK_BYTES d :: .ADI_TOK_RAB :: tokrest)
    (hname : name.all adi_text_byte_ok = true)
    (hd : d.all adi_text_byte_ok = true) :
    (∀ n, rust_parse_usize d = .ok n → ADI_MAX_FIELDLEN < n →
      (adi_parse_data_specifier fuel aps).1 = .error (.ADIF_EBADINPUT
        (strBytes "parsing data specifier: max supported size is " ++
         natDecimal ADI_MAX_FIELDLEN ++ strBytes " bytes")))
    ∧ (∀ e, rust_parse_usize d = .error e →
      (adi_parse_data_specifier fuel aps).1 = .error (.ADIF_EBADINPUT
        (strBytes "parsing data specifier length: " ++ e))) := by
  have hlen : 5 ≤ aps.aps_tokens.length := by rw [htoks]; simp
  have e0 : adi_parse_peek_token aps 0 = (.ok .ADI_TOK_LAB, aps) := by
    rw [adi_parse_peek_token_of_lt aps 0 herr (by omega), htoks]; rfl
  have e1 : adi_parse_peek_token aps 1 = (.ok (.ADI_TOK_BYTES name), aps) := by
    rw [adi_parse_peek_token_of_lt aps 1 herr (by omega), htoks]; rfl
  have e2 : adi_parse_peek_token aps 2 = (.ok .ADI_TOK_COLON, aps) := by
    rw [adi_parse_peek_token_of_lt aps 2 herr (by omega), htoks]; rfl
  have e3 : adi_parse_peek_token aps 3 = (.ok (.ADI_TOK_BYTES d), aps) := by
    rw [adi_parse_peek_token_of_lt aps 3 herr (by omega), htoks]; rfl
  have e4 : adi_parse_peek_token aps 4 = (.ok .ADI_TOK_RAB, aps) := by
    rw [adi_parse_peek_token_of_lt aps 4 herr (by omega), htoks]; rfl
  have hns : adi_token_string (.ADI_TOK_BYTES name)
      (strBytes "parsing data specifier") = .ok name := by
    simp [adi_token_string, hname]
  have hds : adi_token_string (.ADI_TOK_BYTES d)
      (strBytes "parsing data specifier length") = .ok d := by
    simp [adi_token_string, hd]
  constructor
  · intro n hok hgt
    simp only [adi_parse_data_specifier, e0, e1, e2, e3, e4, hns, hds, hok,
      if_pos hgt]
    simp
  · intro e he
    simp only [adi_parse_data_specifier, e0, e1, e2, e3, e4, hns, hds, he]
    simp

/-- Witness for `claim_C6_fieldlen_limit`: a declared length 2000 > 1024
fails even though 2000 value bytes obviously do not follow, and a
non-numeric declared length "xy" fails to parse. -/
theorem claim_C6_witness :
    (adi_parse_data_specifier 5
      { aps_source := [],
        aps_tokens := [.ADI_TOK_LAB, .ADI_TOK_BYTES (strBytes "f"),
          .ADI_TOK_COLON, .ADI_TOK_BYTES (strBytes "2000"), .ADI_TOK_RAB,
          .ADI_TOK_EOF],
        aps_error := false, aps_done := true }).1
      = .error (.ADIF_EBADINPUT
        (strBytes "parsing data specifier: max supported size is " ++
         natDecimal ADI_MAX_FIELDLEN ++ strBytes " bytes"))
    ∧ (adi_parse_data_specifier 5
      { aps_source := [],
        aps_tokens := [.ADI_TOK_LAB, .ADI_TOK_BYTES (strBytes "f"),
          .ADI_TOK_COLON, .ADI_TOK_BYTES (strBytes "xy"), .ADI_TOK_RAB,
          .ADI_TOK_EOF],
        aps_error := false, aps_done := true }).1
      = .error (.ADIF_EBADINPUT
        (strBytes "parsing data specifier length: " ++
         strBytes "invalid digit found in string")) :=
  ⟨(claim_C6_fieldlen_limit 5 _ (strBytes "f") (strBytes "2000")
      [.ADI_TOK_EOF] rfl rfl (by decide) (by decide)).1 2000 rfl
      (by decide),
   (claim_C6_fieldlen_limit 5 _ (strBytes "f") (strBytes "xy")
      [.ADI_TOK_EOF] rfl rfl (by decide) (by decide)).2
      (strBytes "invalid digit found in string") rfl⟩

/-- C9: every `AdiDataSpecifier` returned by a successful
`adi_parse_data_specifier` (any state, any fuel) has value bytes of length
exactly its declared length, a canonical name equal to the ASCII
lower-casing of the name as written, and no type tag. -/
theorem claim_C9_specifier_shape (fuel : Nat) (aps aps2 : AdiParseState)
    (spec : AdiDataSpecifier)
    (h : adi_parse_data_specifier fuel aps = (.ok spec, aps2)) :
    spec.adif_bytes.length = spec.adif_length
    ∧ spec.adif_name_canon = spec.adif_name.map lowerByte
    ∧ spec.adif_type = none := by
  unfold adi_parse_data_specifier at h
  repeat' split at h
  all_goals simp_all
  obtain ⟨hspec, hst⟩ := h
  subst hspec
  exact ⟨by assumption, rfl, rfl⟩

/-- Witness for `claim_C9_specifier_shape`: the specifier parsed from
`<F:2>ab` (name "F", canonical name "f", length 2, bytes "ab", no type). -/
theorem claim_C9_witness :
    ({ adif_name := strBytes "F", adif_name_canon := strBytes "f",
       adif_length := 2, adif_bytes := strBytes "ab",
       adif_type := none } : AdiDataSpecifier).adif_bytes.length
        = ({ adif_name := strBytes "F", adif_name_canon := strBytes "f",
             adif_length := 2, adif_bytes := strBytes "ab",
             adif_type := none } : AdiDataSpecifier).adif_length
    ∧ ({ adif_name := strBytes "F", adif_name_canon := strBytes "f",
         adif_length := 2, adif_bytes := strBytes "ab",
         adif_type := none } : AdiDataSpecifier).adif_name_canon
        = ({ adif_name := strBytes "F", adif_name_canon := strBytes "f",
             adif_length := 2, adif_bytes := strBytes "ab",
             adif_type := none } : AdiDataSpecifier).adif_name.map lowerByte
    ∧ ({ adif_name := strBytes "F", adif_name_canon := strBytes "f",
         adif_length := 2, adif_bytes := strBytes "ab",
         adif_type := none } : AdiDataSpecifier).adif_type = none :=
  claim_C9_specifier_shape 100
    { aps_source := strBytes "<F:2>ab", aps_tokens := [],
      aps_error := false, aps_done := false }
    { aps_source := [], aps_tokens := [.ADI_TOK_EOF],
      aps_error := false, aps_done := true }
    { adif_name := strBytes "F", adif_name_canon := strBytes "f",
      adif_length := 2, adif_bytes := strBytes "ab", adif_type := none }
    rfl

/-- First duplicated canonical name in a field list, given the canonical
names already seen, in the processing order of `adif_record_fields`. -/
def firstDupFrom (seen : List (List Nat)) :
    List AdiDataSpecifier → Option (List Nat)
  | [] => none
  | f :: rest =>
    if seen.any (fun y => y = f.adif_name_canon) then some f.adif_name_canon
    else firstDupFrom (seen ++ [f.adif_name_canon]) rest

/-- First record (1-based, starting at `which`) containing a duplicated
canonical name, together with that name. -/
def firstDupRecord : Nat → List AdiRecord → Option (Nat × List Nat)
  | _, [] => none
  | which, r :: rest =>
    match firstDupFrom [] r.adir_fields with
    | some c => some (which, c)
    | none => firstDupRecord (which + 1) rest

/-- An `Except` that `isOk` holds some value. -/
theorem isOk_exists {α : Type} (x : Except AdifParseError α)
    (h : x.isOk = true) : ∃ v, x = .ok v := by
  cases x with
  | error e => simp [Except.isOk, Except.toBool] at h
  | ok v => exact ⟨v, rfl⟩

/-- Behaviour of the per-record field loop when every field value decodes:
it fails with exactly the duplicate-field message on the first duplicated
canonical name (relative to the accumulated keys), and succeeds when there
is none. -/
theorem adif_record_fields_dup :
    ∀ (fields : List AdiDataSpecifier) (which : Nat)
      (acc : List (List Nat × List Nat)),
    (∀ f ∈ fields, (adif_string f).isOk = true) →
    (∀ c, firstDupFrom (acc.map Prod.fst) fields = some c →
      adif_record_fields which fields acc
        = .error (.ADIF_EBADINPUT (dupMsg which c)))
    ∧ (firstDupFrom (acc.map Prod.fst) fields = none →
      ∃ m, adif_record_fields which fields acc = .ok m)
  | [], which, acc, _ => by
    constructor
    · intro c hc
      simp [firstDupFrom] at hc
    · intro _
      exact ⟨acc, rfl⟩
  | f :: rest, which, acc, hok => by
    have hcontains : containsKey acc f.adif_name_canon
        = (acc.map Prod.fst).any (fun y => decide (y = f.adif_name_canon)) := by
      induction acc with
      | nil => rfl
      | cons p l ih => simp [containsKey] at ih ⊢; rw [ih]
    by_cases hmem :
        (acc.map Prod.fst).any (fun y => decide (y = f.adif_name_canon)) = true
    · constructor
      · intro c hc
        simp only [firstDupFrom, hmem, if_true, Option.some_inj] at hc
        subst hc
        simp only [adif_record_fields, hcontains, hmem, if_true]
      · intro hnone
        simp only [firstDupFrom, hmem, if_true] at hnone
        exact absurd hnone (by simp)
    · obtain ⟨v, hv⟩ := isOk_exists _ (hok f (List.mem_cons_self f rest))
      have hrec : adif_record_fields which (f :: rest) acc
          = adif_record_fields which rest
              (acc ++ [(f.adif_name_canon, v)]) := by
        simp [adif_record_fields, hcontains, hmem, hv]
      have hmap : (acc ++ [(f.adif_name_canon, v)]).map Prod.fst
          = acc.map Prod.fst ++ [f.adif_name_canon] := by simp
      have hfirst : firstDupFrom (acc.map Prod.fst) (f :: rest)
          = firstDupFrom (acc.map Prod.fst ++ [f.adif_name_canon]) rest := by
        simp [firstDupFrom, hmem]
      have ih := adif_record_fields_dup rest which
        (acc ++ [(f.adif_name_canon, v)])
        (fun g hg => hok g (List.mem_cons_of_mem f hg))
      rw [hmap] at ih
      constructor
      · intro c hc
        rw [hfirst] at hc
        rw [hrec]
        exact ih.1 c hc
      · intro hnone
        rw [hfirst] at hnone
        rw [hrec]
        exact ih.2 hnone

/-- Behaviour of the record loop of `adif_parse_adi` when every field value
decodes: it fails with exactly the duplicate-field message naming the
first offending record and field, and succeeds when no record contains a
duplicate. -/
theorem adif_records_go_dup :
    ∀ (recs : List AdiRecord) (which : Nat),
    (∀ r ∈ recs, ∀ f ∈ r.adir_fields, (adif_string f).isOk = true) →
    (∀ i c, firstDupRecord which recs = some (i, c) →
      adif_records_go which recs = .error (.ADIF_EBADINPUT (dupMsg i c)))
    ∧ (firstDupRecord which recs = none →
      ∃ rs, adif_records_go which recs = .ok rs)
  | [], which, _ => by
    constructor
    · intro i c hc
      simp [firstDupRecord] at hc
    · intro _
      exact ⟨[], rfl⟩
  | r :: rest, which, hok => by
    have hfields := adif_record_fields_dup r.adir_fields which []
      (hok r (List.mem_cons_self r rest))
    have ih := adif_records_go_dup rest (which + 1)
      (fun g hg => hok g (List.mem_cons_of_mem r hg))
    cases hfd : firstDupFrom [] r.adir_fields with
    | some c =>
      have herr := hfields.1 c (by simpa using hfd)
      constructor
      · intro i c2 hc
        simp only [firstDupRecord, hfd] at hc
        obtain ⟨rfl, rfl⟩ : which = i ∧ c = c2 := by
          simpa using hc
        simp [adif_records_go, herr]
      · intro hnone
        simp only [firstDupRecord, hfd] at hnone
        exact absurd hnone (by simp)
    | none =>
      obtain ⟨m, hm⟩ := hfields.2 (by simpa using hfd)
      have hgo : adif_records_go which (r :: rest)
          = (match adif_records_go (which + 1) rest with
             | .error e => .error e
             | .ok more => .ok ({ adir_field_values := m } :: more)) := by
        simp [adif_records_go, hm]
      constructor
      · intro i c hc
        simp only [firstDupRecord, hfd] at hc
        rw [hgo, ih.1 i c hc]
      · intro hnone
        simp only [firstDupRecord, hfd] at hnone
        obtain ⟨rs, hrs⟩ := ih.2 hnone
        exact ⟨{ adir_field_values := m } :: rs, by rw [hgo, hrs]⟩

/-- The header loop of `adif_parse_adi` succeeds when every header field
value decodes. -/
theorem adif_header_fields_ok :
    ∀ (fields : List AdiDataSpecifier) (acc : AdifFile),
    (∀ f ∈ fields, (adif_string f).isOk = true) →
    ∃ out, adif_header_fields fields acc = .ok out
  | [], acc, _ => ⟨acc, rfl⟩
  | f :: rest, acc, hok => by
    obtain ⟨v, hv⟩ := isOk_exists _ (hok f (List.mem_cons_self f rest))
    have ihok : ∀ g ∈ rest, (adif_string g).isOk = true :=
      fun g hg => hok g (List.mem_cons_of_mem f hg)
    have d21 : ADIF_HEADER_PROGRAMID ≠ ADIF_HEADER_ADIF_VER := by decide
    have d31 : ADIF_HEADER_PROGRAMVERSION ≠ ADIF_HEADER_ADIF_VER := by decide
    have d32 : ADIF_HEADER_PROGRAMVERSION ≠ ADIF_HEADER_PROGRAMID := by decide
    have d41 : ADIF_HEADER_CREATED_TIMESTAMP ≠ ADIF_HEADER_ADIF_VER := by decide
    have d42 : ADIF_HEADER_CREATED_TIMESTAMP ≠ ADIF_HEADER_PROGRAMID := by
      decide
    have d43 : ADIF_HEADER_CREATED_TIMESTAMP ≠ ADIF_HEADER_PROGRAMVERSION := by
      decide
    by_cases h1 : f.adif_name_canon = ADIF_HEADER_ADIF_VER
    · obtain ⟨out, hout⟩ := adif_header_fields_ok rest
        { acc with adif_adif_version := some v } ihok
      exact ⟨out, by simp [adif_header_fields, h1, hv, hout]⟩
    · by_cases h2 : f.adif_name_canon = ADIF_HEADER_PROGRAMID
      · obtain ⟨out, hout⟩ := adif_header_fields_ok rest
          { acc with adif_program_id := some v } ihok
        exact ⟨out, by simp [adif_header_fields, h1, h2, d21, hv, hout]⟩
      · by_cases h3 : f.adif_name_canon = ADIF_HEADER_PROGRAMVERSION
        · obtain ⟨out, hout⟩ := adif_header_fields_ok rest
            { acc with adif_program_version := some v } ihok
          exact ⟨out, by
            simp [adif_header_fields, h1, h2, h3, d31, d32, hv, hout]⟩
        · by_cases h4 : f.adif_name_canon = ADIF_HEADER_CREATED_TIMESTAMP
          · obtain ⟨out, hout⟩ := adif_header_fields_ok rest
              { acc with adif_created_timestamp := some v } ihok
            exact ⟨out, by
              simp [adif_header_fields, h1, h2, h3, h4, d41, d42, d43, hv,
                hout]⟩
          · obtain ⟨out, hout⟩ := adif_header_fields_ok rest acc ihok
            exact ⟨out, by simp [adif_header_fields, h1, h2, h3, h4, hout]⟩

/-- A physical file on which the C7 claim, as stated, fails: record 1's
only field has value byte 0xFF (invalid UTF-8, no duplicate), record 2
duplicates canonical name "b". -/
def c7CounterFile : AdiFile :=
  { adi_header := none
    adi_records :=
      [ { adir_fields :=
          [ { adif_name := strBytes "a", adif_name_canon := strBytes "a",
              adif_length := 1, adif_bytes := [255], adif_type := none } ] },
        { adir_fields :=
          [ { adif_name := strBytes "b", adif_name_canon := strBytes "b",
              adif_length := 1, adif_bytes := strBytes "x",
              adif_type := none },
            { adif_name := strBytes "B", adif_name_canon := strBytes "b",
              adif_length := 1, adif_bytes := strBytes "y",
              adif_type := none } ] } ] }

/-- C7 counterexample: `c7CounterFile` contains a record (the second) with
two field specifiers of the same canonical name "b", so the claim as
stated requires the error message to identify record 2 and field "b"; but
`adif_parse_adi` fails earlier, on record 1's undecodable value, and its
message (the UTF-8 error for field "a") is not the duplicate-field message
for record 2 and "b". -/
theorem claim_C7_counterexample :
    adif_parse_adi [] c7CounterFile
      = .error (.ADIF_EBADINPUT
          (strBytes "field \"a\": value contained invalid bytes for UTF-8 string"))
    ∧ firstDupRecord 1 c7CounterFile.adi_records = some (2, strBytes "b")
    ∧ strBytes "field \"a\": value contained invalid bytes for UTF-8 string"
        ≠ dupMsg 2 (strBytes "b") :=
  ⟨rfl, rfl, by decide⟩

/-- C7 (amended): provided every field value decodes (header fields, and
every record field, are valid UTF-8 with a string type tag if any), then:
if some record contains two field specifiers with the same canonical name,
`adif_parse_adi` fails with the malformed-input message
`record i: duplicate value for field "c"` where `i` is the 1-based index
of the first such record and `c` the first duplicated canonical name in
it (so no `AdifFile` is produced); and if no record contains a duplicate,
it succeeds. -/
theorem claim_C7_duplicate_field (label : List Nat) (adi : AdiFile)
    (hheader : ∀ hd, adi.adi_header = some hd →
      ∀ f ∈ hd.adih_fields, (adif_string f).isOk = true)
    (hrecs : ∀ r ∈ adi.adi_records, ∀ f ∈ r.adir_fields,
      (adif_string f).isOk = true) :
    (∀ i c, firstDupRecord 1 adi.adi_records = some (i, c) →
      adif_parse_adi label adi = .error (.ADIF_EBADINPUT (dupMsg i c)))
    ∧ (firstDupRecord 1 adi.adi_records = none →
      ∃ out, adif_parse_adi label adi = .ok out) := by
  have hgo := adif_records_go_dup adi.adi_records 1 hrecs
  cases hh : adi.adi_header with
  | none =>
    constructor
    · intro i c hc
      simp [adif_parse_adi, hh, hgo.1 i c hc]
    · intro hnone
      obtain ⟨rs, hrs⟩ := hgo.2 hnone
      exact ⟨{ adif_adif_version := none, adif_program_id := none,
               adif_program_version := none, adif_created_timestamp := none,
               adif_label := label, adif_records := rs },
             by simp [adif_parse_adi, hh, hrs]⟩
  | some hd =>
    obtain ⟨acc, hacc⟩ := adif_header_fields_ok hd.adih_fields
      { adif_adif_version := none, adif_program_id := none,
        adif_program_version := none, adif_created_timestamp := none,
        adif_label := label, adif_records := [] } (hheader hd hh)
    constructor
    · intro i c hc
      simp [adif_parse_adi, hh, hacc, hgo.1 i c hc]
    · intro hnone
      obtain ⟨rs, hrs⟩ := hgo.2 hnone
      exact ⟨{ acc with adif_records := rs },
             by simp [adif_parse_adi, hh, hacc, hrs]⟩

/-- Witness for `claim_C7_duplicate_field`: a file whose only record has
fields `a` and `A` (both canonical name "a", decodable values) is rejected
with the message naming record 1 and field "a". -/
theorem claim_C7_witness :
    adif_parse_adi []
      { adi_header := none
        adi_records :=
          [ { adir_fields :=
              [ { adif_name := strBytes "a", adif_name_canon := strBytes "a",
                  adif_length := 1, adif_bytes := strBytes "x",
                  adif_type := none },
                { adif_name := strBytes "A", adif_name_canon := strBytes "a",
                  adif_length := 1, adif_bytes := strBytes "y",
                  adif_type := none } ] } ] }
      = .error (.ADIF_EBADINPUT (dupMsg 1 (strBytes "a"))) :=
  (claim_C7_duplicate_field []
    { adi_header := none
      adi_records :=
        [ { adir_fields :=
            [ { adif_name := strBytes "a", adif_name_canon := strBytes "a",
                adif_length := 1, adif_bytes := strBytes "x",
                adif_type := none },
              { adif_name := strBytes "A", adif_name_canon := strBytes "a",
                adif_length := 1, adif_bytes := strBytes "y",
                adif_type := none } ] } ] }
    (fun hd h => absurd h (by simp))
    (by decide)).1 1 (strBytes "a") rfl
